import Mathlib

/-!
Verification development for the torustiq pipeline host.

The definitions below are a shallow embedding of the Rust sources:
  - src/pipeline/mod.rs          (component state machine)
  - src/pipeline/pipeline_step.rs, src/pipeline/listener.rs
  - src/pipeline/pipeline.rs     (router thread, command thread, lifecycle)
  - src/callbacks.rs             (module-facing callbacks)
  - src/modules/module_loader.rs (library loading)
  - src/shutdown.rs              (OS interrupt handler)
Module binaries live behind a C ABI; their behaviour is modelled as
function-valued oracles stored in the module structures.  Host-visible
actions (FFI calls, channel sends, logs, process exit) are recorded in an
explicit effect trace.
-/

namespace Torustiq

/-- Component lifecycle states, from PipelineComponentState in src/pipeline/mod.rs. -/
inductive PipelineComponentState
  | Created
  | Configured
  | Running
  | Terminated
deriving DecidableEq, Repr

/-- Common attributes of steps and listeners, from PipelineComponent in
src/pipeline/mod.rs.  The args HashMap is modelled as an association list
(iteration order of the Rust HashMap is unspecified; the list fixes one). -/
structure PipelineComponent where
  args : List (String × String)
  handle : Nat
  id : String
  state : PipelineComponentState
deriving DecidableEq, Repr

/-- PipelineComponent::set_state_terminated. -/
def PipelineComponent.set_state_terminated (c : PipelineComponent) : PipelineComponent :=
  { c with state := PipelineComponentState.Terminated }

/-- PipelineComponent::is_terminated. -/
def PipelineComponent.is_terminated (c : PipelineComponent) : Bool :=
  c.state = PipelineComponentState.Terminated

/-- A record crossing the ABI boundary (torustiq_common Record); the payload is
opaque to the host, so it is modelled by an identifier. -/
structure Record where
  rid : Nat
deriving DecidableEq, Repr

/-- Record::clone as used in callbacks.rs (the clone sent downstream). -/
def Record.clone (r : Record) : Record := r

/-- Role of a step, from PipelineModuleKind (torustiq_common). -/
inductive PipelineModuleKind
  | Source
  | Transformation
  | Destination
deriving DecidableEq, Repr

/-- Result of torustiq_module_pipeline_configure. -/
inductive ModulePipelineConfigureFnResult
  | Ok
  | ErrorKindNotSupported
  | ErrorMultipleStepsNotSupported (existing_module_handle : Nat)
  | ErrorMisc (msg : String)
deriving DecidableEq, Repr

/-- Result of torustiq_module_common_start. -/
inductive StepStartFnResult
  | Ok
  | ErrorMisc (msg : String)
deriving DecidableEq, Repr

/-- Result of torustiq_module_pipeline_process_record. -/
inductive ModulePipelineProcessRecordFnResult
  | Ok (is_consumed : Bool)
  | ErrWrongModuleHandle (handle : Nat) (is_consumed : Bool)
  | ErrMisc (msg : String) (is_consumed : Bool)
deriving DecidableEq, Repr

/-- Result of torustiq_module_listener_configure. -/
inductive ModuleListenerConfigureFnResult
  | Ok
  | ErrorMisc (msg : String)
deriving DecidableEq, Repr

/-- The is_consumed flag carried by every ModulePipelineProcessRecordFnResult
variant (the flag honoured by the router when deciding whether to free). -/
def process_result_is_consumed : ModulePipelineProcessRecordFnResult → Bool
  | ModulePipelineProcessRecordFnResult.Ok c => c
  | ModulePipelineProcessRecordFnResult.ErrWrongModuleHandle _ c => c
  | ModulePipelineProcessRecordFnResult.ErrMisc _ c => c

/-- A pipeline-kind module: the function table bound by the loader
(src/modules/pipeline.rs).  Functions are behaviour oracles; free_record_fn
is an identity tag for the torustiq_module_pipeline_free_record pointer
stored into FREE_BUF. -/
structure PipelineModule where
  module_id : String
  configure_fn : Nat → PipelineModuleKind → ModulePipelineConfigureFnResult
  start_fn : Nat → StepStartFnResult
  process_record_fn : Nat → Record → ModulePipelineProcessRecordFnResult
  free_record_fn : Nat

/-- A listener-kind module (src/modules/listener.rs). -/
structure ListenerModule where
  module_id : String
  configure_fn : Nat → ModuleListenerConfigureFnResult
  start_fn : Nat → StepStartFnResult

/-- A pipeline step (src/pipeline/pipeline_step.rs). -/
structure PipelineStep where
  component : PipelineComponent
  module : PipelineModule

/-- An event listener (src/pipeline/listener.rs). -/
structure Listener where
  component : PipelineComponent
  module : ListenerModule

/-- PipelineStep::from_module: handle is the assembly counter value, id is
"step_{handle}_{module id}", state starts at Created. -/
def PipelineStep.from_module (m : PipelineModule) (handle : Nat)
    (args : Option (List (String × String))) : PipelineStep :=
  { component :=
      { args := args.getD []
        handle := handle
        id := "step_" ++ toString handle ++ "_" ++ m.module_id
        state := PipelineComponentState.Created }
    module := m }

/-- Listener::from_module. -/
def Listener.from_module (m : ListenerModule) (handle : Nat)
    (args : Option (List (String × String))) : Listener :=
  { component :=
      { args := args.getD []
        handle := handle
        id := "evt_listener_" ++ toString handle ++ "_" ++ m.module_id
        state := PipelineComponentState.Created }
    module := m }

/-- The Pipeline value (src/pipeline/pipeline.rs). -/
structure Pipeline where
  description : Option String
  listeners : List Listener
  steps : List PipelineStep

/-- The single system-command message (src/xthread.rs). -/
inductive SystemMessage
  | TerminateStep (handle : Nat)
deriving DecidableEq, Repr

/-- Host-visible actions.  Every FFI call into a module, channel operation,
log line and process exit performed by the embedded code is recorded as one
of these. -/
inductive HostEffect
  | set_param (handle : Nat) (key value : String)
  | configure_call (handle : Nat) (kind : PipelineModuleKind)
  | start_listener_call (handle : Nat)
  | start_step_call (handle : Nat)
  | on_record_received (listener_handle receiver_handle : Nat) (r : Record)
  | on_record_sent (listener_handle receiver_handle : Nat) (r : Record)
  | on_record_error (listener_handle receiver_handle : Nat) (r : Record)
  | process_record_call (handle : Nat) (r : Record)
  | free_record_contents (r : Record)
  | free_via_module_free_record (free_fn : Nat) (r : Record)
  | free_char (msg : String)
  | shutdown_call (handle : Nat)
  | send_record (sender_handle : Nat) (r : Record)
  | send_system_message (msg : SystemMessage)
  | exit_process (code : Int)
  | log_error (msg : String)
deriving DecidableEq, Repr

/-- True for the two deallocation actions a record can receive. -/
def HostEffect.is_dealloc : HostEffect → Bool
  | HostEffect.free_record_contents _ => true
  | HostEffect.free_via_module_free_record _ _ => true
  | _ => false

/-- True only for a deallocation through a module-registered free-record
function (the FREE_BUF path). -/
def HostEffect.is_free_via_module : HostEffect → Bool
  | HostEffect.free_via_module_free_record _ _ => true
  | _ => false

/-- First-match association lookup; models HashMap::get where maps are built
by prepending (a later insert for the same key shadows the earlier one). -/
def assoc_lookup {α β : Type} [DecidableEq α] : List (α × β) → α → Option β
  | [], _ => none
  | (k, v) :: rest, key => if k = key then some v else assoc_lookup rest key

/- ===== Record router thread (start_reader_thread, src/pipeline/pipeline.rs) ===== -/

/-- One inbox observation of a router thread: either the 100 ms receive
timeout fired (carrying the upstream step component as sampled under its
lock at that instant), or a record arrived. -/
inductive RxEvent
  | timeout (sender : PipelineComponent)
  | record (r : Record)
deriving DecidableEq, Repr

/-- The process_record arm of the router loop: calls ffi_process_record and
decodes the result exactly as the match in start_reader_thread does,
returning (logged effects, success, is_consumed). -/
def reader_process_record (step_rcv : PipelineStep) (h : Nat) (r : Record) :
    List HostEffect × Bool × Bool :=
  match step_rcv.module.process_record_fn h r with
  | ModulePipelineProcessRecordFnResult.Ok c => ([], true, c)
  | ModulePipelineProcessRecordFnResult.ErrWrongModuleHandle wh c =>
      ([HostEffect.log_error ("Wrong module handle \x27" ++ toString wh ++ "\x27")], false, c)
  | ModulePipelineProcessRecordFnResult.ErrMisc e c =>
      ([HostEffect.log_error ("Failed to process record in step \x27" ++
          step_rcv.component.id ++ "\x27: " ++ e),
        HostEffect.free_char e], false, c)

/-- One iteration of the router loop body.  Returns the effects of the
iteration and whether the loop continues (false = the break on an exhausted
upstream). -/
def reader_iteration (step_rcv : PipelineStep) (listeners : List Listener) :
    RxEvent → List HostEffect × Bool
  | RxEvent.timeout sender =>
      -- timeout arm: break iff the sending step is terminated
      ([], !sender.is_terminated)
  | RxEvent.record r =>
      let h := step_rcv.component.handle
      let received := listeners.map
        (fun l => HostEffect.on_record_received l.component.handle h r)
      let pr := reader_process_record step_rcv h r
      let notified := listeners.map (fun l =>
        if pr.2.1
        then HostEffect.on_record_sent l.component.handle h r
        else HostEffect.on_record_error l.component.handle h r)
      let freed := if pr.2.2 then [] else [HostEffect.free_record_contents r]
      (received ++ [HostEffect.process_record_call h r] ++ pr.1 ++ notified ++ freed, true)

/-- The whole router thread over a finite observation trace: iterate until
the trace ends (thread still waiting) or the loop breaks, in which case the
post-loop ffi_shutdown of the receiving step runs and later events are
never consumed. -/
def reader_thread_run (step_rcv : PipelineStep) (listeners : List Listener) :
    List RxEvent → List HostEffect
  | [] => []
  | e :: rest =>
      match reader_iteration step_rcv listeners e with
      | (effs, true) => effs ++ reader_thread_run step_rcv listeners rest
      | (effs, false) => effs ++ [HostEffect.shutdown_call step_rcv.component.handle]

/- ===== Configure / start lifecycle (src/pipeline/pipeline.rs) ===== -/

/-- Role computation inside Pipeline::configure_steps: index 0 is Source,
the last index is Destination, everything else Transformation. -/
def step_kind (last_step_index step_index : Nat) : PipelineModuleKind :=
  if step_index = 0 then PipelineModuleKind.Source
  else if step_index = last_step_index then PipelineModuleKind.Destination
  else PipelineModuleKind.Transformation

/-- The error message the host wrapper produces for each configure result
(PipelineModule::configure in src/modules/pipeline.rs); none for Ok. -/
def pipeline_configure_error (module_handle : Nat) :
    ModulePipelineConfigureFnResult → Option String
  | ModulePipelineConfigureFnResult.Ok => none
  | ModulePipelineConfigureFnResult.ErrorKindNotSupported =>
      some ("The module cannot be used in step with handle \x27" ++
        toString module_handle ++ "\x27")
  | ModulePipelineConfigureFnResult.ErrorMultipleStepsNotSupported existing =>
      some ("Cannot configure step with handle " ++ toString module_handle ++
        ": the module supports only one instance of steps and is already registered in step " ++
        toString existing)
  | ModulePipelineConfigureFnResult.ErrorMisc e => some e

/-- PipelineStep::configure: on module Ok the component moves to Configured,
otherwise the wrapper error message is returned. -/
def PipelineStep.configure (s : PipelineStep) (kind : PipelineModuleKind) :
    Except String PipelineStep :=
  match pipeline_configure_error s.component.handle
      (s.module.configure_fn s.component.handle kind) with
  | none => Except.ok
      { s with component := { s.component with state := PipelineComponentState.Configured } }
  | some e => Except.error e

/-- Loop body of Pipeline::configure_steps over the remaining steps, where
idx is the position of the head in the whole pipeline.  Returns the effect
trace, the step list after the call (steps mutated in place up to the first
failure), and the error of the first failing step if any. -/
def configure_steps_go (last idx : Nat) :
    List PipelineStep → List HostEffect × List PipelineStep × Option String
  | [] => ([], [], none)
  | s :: rest =>
      let h := s.component.handle
      let param_effs := s.component.args.map
        (fun kv => HostEffect.set_param h kv.1 kv.2)
      let kind := step_kind last idx
      let effs := param_effs ++ [HostEffect.configure_call h kind]
      match s.configure kind with
      | Except.error e => (effs, s :: rest, some e)
      | Except.ok s2 =>
          let next := configure_steps_go last (idx + 1) rest
          (effs ++ next.1, s2 :: next.2.1, next.2.2)

/-- Pipeline::configure_steps: walks the steps in order, pushes every arg
via set_param, calls configure with the position-derived role, aborts on the
first error. -/
def Pipeline.configure_steps (p : Pipeline) :
    List HostEffect × List PipelineStep × Option String :=
  configure_steps_go (p.steps.length - 1) 0 p.steps

/-- Loop of Pipeline::start_steps over the listeners (listeners are started
first).  The wrapper turns a module ErrorMisc into the formatted message. -/
def start_listeners_go : List Listener → List HostEffect × Except String Unit
  | [] => ([], Except.ok ())
  | l :: rest =>
      let h := l.component.handle
      match l.module.start_fn h with
      | StepStartFnResult.Ok =>
          let next := start_listeners_go rest
          (HostEffect.start_listener_call h :: next.1, next.2)
      | StepStartFnResult.ErrorMisc e =>
          ([HostEffect.start_listener_call h],
           Except.error ("Failed to start event listener \x27" ++
             l.component.id ++ "\x27: " ++ e))

/-- Loop of Pipeline::start_steps over the steps (after the listeners). -/
def start_pipeline_steps_go : List PipelineStep → List HostEffect × Except String Unit
  | [] => ([], Except.ok ())
  | s :: rest =>
      let h := s.component.handle
      match s.module.start_fn h with
      | StepStartFnResult.Ok =>
          let next := start_pipeline_steps_go rest
          (HostEffect.start_step_call h :: next.1, next.2)
      | StepStartFnResult.ErrorMisc e =>
          ([HostEffect.start_step_call h],
           Except.error ("Failed to start pipeline step \x27" ++
             s.component.id ++ "\x27: " ++ e))

/-- Pipeline::start_steps.  The Rust method takes an immutable borrow and
only calls the modules and logs: it never writes any component state, so the
embedding returns only the effect trace and the result. -/
def Pipeline.start_steps (p : Pipeline) : List HostEffect × Except String Unit :=
  match start_listeners_go p.listeners with
  | (effs, Except.ok _) =>
      let next := start_pipeline_steps_go p.steps
      (effs ++ next.1, next.2)
  | (effs, Except.error e) => (effs, Except.error e)

/- ===== System command bus (start_system_command_thread) and callbacks ===== -/

/-- Pipeline::get_step_by_handle_mut: first step whose component handle
matches. -/
def Pipeline.get_step_by_handle (p : Pipeline) (handle : Nat) : Option PipelineStep :=
  p.steps.find? (fun s => s.component.handle = handle)

/-- In-place mutation through the Arc returned by get_step_by_handle_mut:
the first matching step is marked Terminated, every other step untouched. -/
def terminate_first_matching : List PipelineStep → Nat → List PipelineStep
  | [], _ => []
  | s :: rest, handle =>
      if s.component.handle = handle
      then { s with component := s.component.set_state_terminated } :: rest
      else s :: terminate_first_matching rest handle

/-- Pipeline after the command thread (or the termination callback) marks
the step with the given handle Terminated. -/
def Pipeline.terminate_step_by_handle (p : Pipeline) (handle : Nat) : Pipeline :=
  { p with steps := terminate_first_matching p.steps handle }

/-- The system-command consumer thread over the messages it receives, given
the pipeline registered in the PIPELINE singleton.  For each TerminateStep:
a missing handle makes the closure return, ending the thread (second
component true); otherwise the step is marked Terminated and the loop
continues.  Messages after an early return are never consumed. -/
def system_command_thread_run (p : Pipeline) :
    List SystemMessage → Pipeline × Bool
  | [] => (p, false)
  | SystemMessage.TerminateStep h :: rest =>
      match p.get_step_by_handle h with
      | some _ => system_command_thread_run (p.terminate_step_by_handle h) rest
      | none => (p, true)

/-- The same thread when the PIPELINE singleton may be unset: an unset
singleton makes the closure return on the first message received. -/
def system_command_thread_run_opt :
    Option Pipeline → List SystemMessage → Option Pipeline × Bool
  | none, [] => (none, false)
  | none, _ :: _ => (none, true)
  | some p, msgs =>
      let r := system_command_thread_run p msgs
      (some r.1, r.2)

/-- on_step_terminate_cb (src/callbacks.rs): the termination callback passed
to every module at init.  It locks the PIPELINE singleton, looks the step up
by handle and marks it Terminated itself; it sends nothing on the
system-command channel. -/
def on_step_terminate_cb (pipeline : Option Pipeline) (step_handle : Nat) :
    Option Pipeline × List HostEffect :=
  match pipeline with
  | none =>
      (none, [HostEffect.log_error
        ("Cannot process the retmination callback for step " ++ toString step_handle ++
         ": pipeline is not registered in static context")])
  | some p =>
      match p.get_step_by_handle step_handle with
      | none =>
          (some p, [HostEffect.log_error
            ("Cannot find a pipeline step with handle \x27" ++ toString step_handle ++
             "\x27 in static context")])
      | some _ => (some (p.terminate_step_by_handle step_handle), [])

/-- State of the receiver side of a per-edge record channel: a send fails
once the reader thread has dropped the receiver. -/
structure SenderChannel where
  alive : Bool
deriving DecidableEq, Repr

/-- on_rcv_cb (src/callbacks.rs): the record-emission callback.  No sender
registered for the handle: return, nothing happens.  Otherwise a clone is
sent; if the send fails the callback logs and returns without freeing; on
success the original is freed through the FREE_BUF entry of the emitting
handle (none models the unwrap panic when that entry is missing). -/
def on_rcv_cb (senders : List (Nat × SenderChannel)) (free_buf : List (Nat × Nat))
    (r : Record) (step_handle : Nat) : Option (List HostEffect) :=
  match assoc_lookup senders step_handle with
  | none => some []
  | some ch =>
      if ch.alive then
        match assoc_lookup free_buf step_handle with
        | some free_fn =>
            some [HostEffect.send_record step_handle r.clone,
                  HostEffect.free_via_module_free_record free_fn r]
        | none => none
      else
        -- the Rust message ends with the Display of the SendError
        some [HostEffect.log_error
          ("Failed to send a record from step \x27" ++ toString step_handle ++
           "\x27 to the next steep")]

/-- The SENDERS registry as populated by Pipeline::start_senders_receivers:
one live channel per edge index i in 0..steps.len()-1. -/
def Pipeline.registered_senders (p : Pipeline) : List (Nat × SenderChannel) :=
  (List.range (p.steps.length - 1)).map (fun i => (i, { alive := true }))

/-- The FREE_BUF registry as populated by Pipeline::start_senders_receivers:
for each edge, the sending step free-record function keyed by the sender
index. -/
def Pipeline.registered_free_buf (p : Pipeline) : List (Nat × Nat) :=
  (p.steps.take (p.steps.length - 1)).enum.map
    (fun is => (is.1, is.2.module.free_record_fn))

/- ===== Pipeline assembly (TryFrom in src/pipeline/pipeline.rs) ===== -/

/-- One step or listener entry of the definition file (src/config.rs). -/
structure ModuleDefinition where
  name : String
  handler : String
  args : Option (List (String × String))
deriving Repr

/-- The parsed pipeline definition (src/config.rs). -/
structure PipelineDefinition where
  description : Option String
  steps : List ModuleDefinition
  listeners : Option (List ModuleDefinition)

/-- Registries produced by the module loader (src/modules/module_loader.rs),
keyed by module id; built by prepending, looked up first-match, which gives
the HashMap overwrite semantics. -/
structure LoadedLibraries where
  pipeline : List (String × PipelineModule)
  listeners : List (String × ListenerModule)

/-- Pipeline::validate: the only remaining rule is the two-step minimum. -/
def Pipeline.validate (p : Pipeline) : Except String Unit :=
  if p.steps.length < 2 then
    Except.error ("Pipeline must have at least two steps. The actual number of steps: " ++
      toString p.steps.length)
  else Except.ok ()

/-- Outcome of the TryFrom assembly; panicked models a .unwrap() failure. -/
inductive BuildResult
  | ok (p : Pipeline)
  | err (msg : String)
  | panicked

/-- The step-building map of the TryFrom impl: each step definition is
resolved in the pipeline registry (unwrap: none models the panic) and turned
into a Created step, with the handle counter advancing per step. -/
def build_steps (libs : List (String × PipelineModule)) :
    List ModuleDefinition → Nat → Option (List PipelineStep)
  | [], _ => some []
  | sd :: rest, idx =>
      match assoc_lookup libs sd.handler with
      | none => none
      | some m =>
          (build_steps libs rest (idx + 1)).map
            (fun l => PipelineStep.from_module m idx sd.args :: l)

/-- The listener-building map of the TryFrom impl; the handle counter
continues after the steps.  Unlike the steps, the listener handlers were
never validated, so the unwrap (none) is reachable. -/
def build_listeners (libs : List (String × ListenerModule)) :
    List ModuleDefinition → Nat → Option (List Listener)
  | [], _ => some []
  | ld :: rest, idx =>
      match assoc_lookup libs ld.handler with
      | none => none
      | some m =>
          (build_listeners libs rest (idx + 1)).map
            (fun l => Listener.from_module m idx ld.args :: l)

/-- TryFrom<(&PipelineDefinition, &LoadedLibraries)> for Pipeline: the step
handlers are checked first (first missing one is the returned error), the
steps and listeners are built (a missing listener handler panics in the
unwrap), and validate runs last. -/
def Pipeline.try_from (definition : PipelineDefinition) (libs : LoadedLibraries) :
    BuildResult :=
  match definition.steps.find?
      (fun sd => (assoc_lookup libs.pipeline sd.handler).isNone) with
  | some sd => BuildResult.err ("Module not found: " ++ sd.handler)
  | none =>
      match build_steps libs.pipeline definition.steps 0 with
      | none => BuildResult.panicked
      | some steps =>
          match build_listeners libs.listeners (definition.listeners.getD [])
              definition.steps.length with
          | none => BuildResult.panicked
          | some ls =>
              let p : Pipeline :=
                { description := definition.description, steps := steps, listeners := ls }
              match p.validate with
              | Except.error e => BuildResult.err e
              | Except.ok _ => BuildResult.ok p

/- ===== Module loader (load_libraries, src/modules/module_loader.rs) ===== -/

/-- What the loader sees for one file in the module directory: the
descriptor returned by torustiq_module_get_info plus the bound function
table by kind. -/
inductive LoadedLibraryEntry
  | pipelineLib (m : PipelineModule)
  | listenerLib (m : ListenerModule)

/-- One enumerated library file: declared api_version, module id, payload. -/
structure LibEntry where
  api_version : Nat
  id : String
  lib : LoadedLibraryEntry

/-- The enumeration loop of load_libraries: a version-mismatched library is
skipped with a warning, an id not referenced by the pipeline is skipped,
anything else is inserted into the registry of its kind and recorded in
loaded_module_ids. -/
def load_libraries_go (cur : Nat) (required : List String) :
    List LibEntry → LoadedLibraries → List String → LoadedLibraries × List String
  | [], acc, loaded => (acc, loaded)
  | e :: rest, acc, loaded =>
      if e.api_version ≠ cur then
        load_libraries_go cur required rest acc loaded
      else if required.contains e.id then
        let acc2 := match e.lib with
          | LoadedLibraryEntry.pipelineLib m =>
              { acc with pipeline := (e.id, m) :: acc.pipeline }
          | LoadedLibraryEntry.listenerLib m =>
              { acc with listeners := (e.id, m) :: acc.listeners }
        load_libraries_go cur required rest acc2 (loaded ++ [e.id])
      else
        load_libraries_go cur required rest acc loaded

/-- The required ids that stayed unloaded after the whole enumeration. -/
def missing_module_ids (cur : Nat) (entries : List LibEntry)
    (required : List String) : List String :=
  let loaded := (load_libraries_go cur required entries
    { pipeline := [], listeners := [] } []).2
  required.filter (fun i => !loaded.contains i)

/-- load_libraries: enumerate, then fail with the aggregate message listing
every missing required id, or return the registries.  The missing list is
the same filter the source computes inline (missing_module_ids unfolds to
it). -/
def load_libraries (cur : Nat) (entries : List LibEntry)
    (required : List String) : Except String LoadedLibraries :=
  let r := load_libraries_go cur required entries
    { pipeline := [], listeners := [] } []
  let missing := missing_module_ids cur entries required
  if 0 < missing.length then
    Except.error ("Failed to load modules: " ++ String.intercalate ", " missing)
  else
    Except.ok r.1

/- ===== Shutdown coordinator (src/shutdown.rs) ===== -/

/-- Pipeline::trigger_termination calls shutdown on the first step; none
models the first().unwrap() panic on an empty step list. -/
def Pipeline.trigger_termination (p : Pipeline) : Option HostEffect :=
  p.steps.head?.map (fun s => HostEffect.shutdown_call s.component.handle)

/-- The ctrlc handler closure installed by init_signal_handler, as a
function of the IS_GRACEFUL_SHUTDOWN_REQUESTED flag and the PIPELINE
singleton.  Returns the new flag and the effects, none modelling the
trigger_termination unwrap panic. -/
def ctrlc_handler (graceful_requested : Bool) (pipeline : Option Pipeline) :
    Bool × Option (List HostEffect) :=
  match graceful_requested with
  | false =>
      match pipeline with
      | none =>
          (true, some [HostEffect.log_error "Cannot receive a pipeline singleton"])
      | some p =>
          match p.trigger_termination with
          | none => (true, none)
          | some eff => (true, some [eff])
  | true => (true, some [HostEffect.exit_process (-1)])

/- ===== Helper lemmas ===== -/

/-- Filtering a mapped effect list is empty when the predicate rejects every
produced effect. -/
lemma filter_map_eq_nil {α : Type} (p : HostEffect → Bool) (f : α → HostEffect)
    (hf : ∀ a, p (f a) = false) (l : List α) : (l.map f).filter p = [] := by
  induction l with
  | nil => rfl
  | cons a rest ih => simp [List.filter, hf a, ih]

/-- assoc_lookup misses when no key of the list matches. -/
lemma assoc_lookup_eq_none {α β : Type} [DecidableEq α] (l : List (α × β)) (k : α)
    (h : ∀ kv ∈ l, kv.1 ≠ k) : assoc_lookup l k = none := by
  induction l with
  | nil => rfl
  | cons kv rest ih =>
      have hk : kv.1 ≠ k := h kv (by simp)
      simp only [assoc_lookup, if_neg hk]
      exact ih (fun kv2 hm => h kv2 (by simp [hm]))

/-- Listener received-notifications contain no deallocation. -/
lemma filter_dealloc_received (ls : List Listener) (h : Nat) (r : Record) :
    (ls.map (fun l => HostEffect.on_record_received l.component.handle h r)).filter
      HostEffect.is_dealloc = [] :=
  filter_map_eq_nil _ _ (fun _ => rfl) ls

/-- Listener sent-notifications contain no deallocation. -/
lemma filter_dealloc_sent (ls : List Listener) (h : Nat) (r : Record) :
    (ls.map (fun l => HostEffect.on_record_sent l.component.handle h r)).filter
      HostEffect.is_dealloc = [] :=
  filter_map_eq_nil _ _ (fun _ => rfl) ls

/-- Listener error-notifications contain no deallocation. -/
lemma filter_dealloc_error (ls : List Listener) (h : Nat) (r : Record) :
    (ls.map (fun l => HostEffect.on_record_error l.component.handle h r)).filter
      HostEffect.is_dealloc = [] :=
  filter_map_eq_nil _ _ (fun _ => rfl) ls

/-- Listener received-notifications use no module free-record function. -/
lemma filter_via_module_received (ls : List Listener) (h : Nat) (r : Record) :
    (ls.map (fun l => HostEffect.on_record_received l.component.handle h r)).filter
      HostEffect.is_free_via_module = [] :=
  filter_map_eq_nil _ _ (fun _ => rfl) ls

/-- Listener sent-notifications use no module free-record function. -/
lemma filter_via_module_sent (ls : List Listener) (h : Nat) (r : Record) :
    (ls.map (fun l => HostEffect.on_record_sent l.component.handle h r)).filter
      HostEffect.is_free_via_module = [] :=
  filter_map_eq_nil _ _ (fun _ => rfl) ls

/-- Listener error-notifications use no module free-record function. -/
lemma filter_via_module_error (ls : List Listener) (h : Nat) (r : Record) :
    (ls.map (fun l => HostEffect.on_record_error l.component.handle h r)).filter
      HostEffect.is_free_via_module = [] :=
  filter_map_eq_nil _ _ (fun _ => rfl) ls

/- ===== C5 ===== -/

/-- C5: in a router thread, a 100 ms receive timeout with the upstream step
Terminated makes the thread break out of its loop, invoke shutdown on the
receiving step exactly once, and consume no further event; a timeout with
the upstream not Terminated contributes no effect and the thread keeps
waiting on the remaining events. -/
theorem claim_C5 (s : PipelineStep) (ls : List Listener) (c : PipelineComponent)
    (rest : List RxEvent) :
    (c.state = PipelineComponentState.Terminated →
      reader_thread_run s ls (RxEvent.timeout c :: rest)
        = [HostEffect.shutdown_call s.component.handle]
      ∧ (reader_thread_run s ls (RxEvent.timeout c :: rest)).count
          (HostEffect.shutdown_call s.component.handle) = 1)
    ∧ (c.state ≠ PipelineComponentState.Terminated →
      reader_iteration s ls (RxEvent.timeout c) = ([], true)
      ∧ reader_thread_run s ls (RxEvent.timeout c :: rest)
        = reader_thread_run s ls rest) := by
  constructor
  · intro h
    have hterm : c.is_terminated = true := by
      simp [PipelineComponent.is_terminated, h]
    constructor
    · simp [reader_thread_run, reader_iteration, hterm]
    · simp [reader_thread_run, reader_iteration, hterm]
  · intro h
    have hterm : c.is_terminated = false := by
      simp [PipelineComponent.is_terminated, h]
    constructor
    · simp [reader_iteration, hterm]
    · simp [reader_thread_run, reader_iteration, hterm]

/-- C5 witness: concrete two-event runs exercising both timeout arms. -/
theorem claim_C5_witness :
    reader_thread_run
      { component := { args := [], handle := 1, id := "step_1_w", state := PipelineComponentState.Running }
        module := { module_id := "w", configure_fn := fun _ _ => ModulePipelineConfigureFnResult.Ok
                    start_fn := fun _ => StepStartFnResult.Ok
                    process_record_fn := fun _ _ => ModulePipelineProcessRecordFnResult.Ok true
                    free_record_fn := 0 } }
      []
      (RxEvent.timeout { args := [], handle := 0, id := "step_0_w", state := PipelineComponentState.Terminated } :: [])
      = [HostEffect.shutdown_call 1] :=
  ((claim_C5
      { component := { args := [], handle := 1, id := "step_1_w", state := PipelineComponentState.Running }
        module := { module_id := "w", configure_fn := fun _ _ => ModulePipelineConfigureFnResult.Ok
                    start_fn := fun _ => StepStartFnResult.Ok
                    process_record_fn := fun _ _ => ModulePipelineProcessRecordFnResult.Ok true
                    free_record_fn := 0 } }
      []
      { args := [], handle := 0, id := "step_0_w", state := PipelineComponentState.Terminated }
      []).1 rfl).1

/- ===== C1 ===== -/

/-- C1 (amended): for a record processed by a router thread, the iteration
issues no deallocation when the result carries consumed=true and exactly one
deallocation when consumed=false, and that deallocation is the host-side
Record::free_contents call, never a module free-record function: the router
never frees through the producer's registered free-record function. -/
theorem claim_C1 (s : PipelineStep) (ls : List Listener) (r : Record) :
    ((reader_iteration s ls (RxEvent.record r)).1.filter HostEffect.is_dealloc)
      = (if process_result_is_consumed
            (s.module.process_record_fn s.component.handle r)
         then [] else [HostEffect.free_record_contents r])
    ∧ ((reader_iteration s ls (RxEvent.record r)).1.filter HostEffect.is_free_via_module)
      = [] := by
  cases hres : s.module.process_record_fn s.component.handle r with
  | Ok c =>
      cases c <;>
        simp [reader_iteration, reader_process_record, hres, process_result_is_consumed,
          List.filter_append, filter_dealloc_received, filter_dealloc_sent,
          filter_dealloc_error, filter_via_module_received, filter_via_module_sent,
          filter_via_module_error,
          HostEffect.is_dealloc, HostEffect.is_free_via_module, List.filter]
  | ErrWrongModuleHandle wh c =>
      cases c <;>
        simp [reader_iteration, reader_process_record, hres, process_result_is_consumed,
          List.filter_append, filter_dealloc_received, filter_dealloc_sent,
          filter_dealloc_error, filter_via_module_received, filter_via_module_sent,
          filter_via_module_error,
          HostEffect.is_dealloc, HostEffect.is_free_via_module, List.filter]
  | ErrMisc e c =>
      cases c <;>
        simp [reader_iteration, reader_process_record, hres, process_result_is_consumed,
          List.filter_append, filter_dealloc_received, filter_dealloc_sent,
          filter_dealloc_error, filter_via_module_received, filter_via_module_sent,
          filter_via_module_error,
          HostEffect.is_dealloc, HostEffect.is_free_via_module, List.filter]

/-- Destination step used by the C1 counterexample: its process_record
reports consumed=false. -/
def c1_step : PipelineStep :=
  { component := { args := [], handle := 1, id := "step_1_dst", state := PipelineComponentState.Running }
    module := { module_id := "dst"
                configure_fn := fun _ _ => ModulePipelineConfigureFnResult.Ok
                start_fn := fun _ => StepStartFnResult.Ok
                process_record_fn := fun _ _ => ModulePipelineProcessRecordFnResult.Ok false
                free_record_fn := 9 } }

/-- C1 counterexample: with consumed=false the router does issue a single
deallocation, but it is Record::free_contents, not the producing module's
free-record function — the claim that the free call goes through the
producer's free function fails at this input. -/
theorem claim_C1_cex :
    process_result_is_consumed
        (c1_step.module.process_record_fn c1_step.component.handle { rid := 0 }) = false
    ∧ ¬ (((reader_iteration c1_step [] (RxEvent.record { rid := 0 })).1.countP
          HostEffect.is_free_via_module) = 1)
    ∧ ((reader_iteration c1_step [] (RxEvent.record { rid := 0 })).1.filter
          HostEffect.is_dealloc)
        = [HostEffect.free_record_contents { rid := 0 }] := by
  refine ⟨rfl, ?_, rfl⟩
  decide

/- ===== C9 ===== -/

/-- C9: when the system-command consumer thread receives a TerminateStep
whose handle matches no step (or the pipeline singleton is unset), the
closure returns, ending the thread: the pipeline is left unchanged and the
remaining messages are never processed, whatever they are. -/
theorem claim_C9 :
    (∀ (p : Pipeline) (h : Nat) (rest : List SystemMessage),
        p.get_step_by_handle h = none →
        system_command_thread_run p (SystemMessage.TerminateStep h :: rest) = (p, true))
    ∧ (∀ (msg : SystemMessage) (rest : List SystemMessage),
        system_command_thread_run_opt none (msg :: rest) = (none, true)) := by
  constructor
  · intro p h rest hnone
    simp [system_command_thread_run, hnone]
  · intro msg rest
    rfl

/-- C9 witness: a pipeline with no step of handle 5 leaves the thread
stopped and the state untouched, regardless of a pending second message. -/
theorem claim_C9_witness :
    system_command_thread_run
      { description := none, listeners := [], steps := [] }
      (SystemMessage.TerminateStep 5 :: [SystemMessage.TerminateStep 5])
      = ({ description := none, listeners := [], steps := [] }, true) :=
  claim_C9.1 { description := none, listeners := [], steps := [] } 5
    [SystemMessage.TerminateStep 5] rfl

/- ===== C8 ===== -/

/-- C8: a first OS interrupt (graceful flag unset) with the pipeline
registered performs exactly one shutdown call, on the first step, and sets
the flag; a first interrupt never emits a process exit; a second interrupt
(flag already set) exits the process immediately, whatever the pipeline
state. -/
theorem claim_C8 :
    (∀ (p : Pipeline) (s : PipelineStep) (rest : List PipelineStep),
        p.steps = s :: rest →
        ctrlc_handler false (some p)
          = (true, some [HostEffect.shutdown_call s.component.handle]))
    ∧ (∀ (popt : Option Pipeline) (l : List HostEffect) (code : Int),
        (ctrlc_handler false popt).2 = some l → HostEffect.exit_process code ∉ l)
    ∧ (∀ popt : Option Pipeline,
        ctrlc_handler true popt = (true, some [HostEffect.exit_process (-1)])) := by
  refine ⟨?_, ?_, ?_⟩
  · intro p s rest hsteps
    simp [ctrlc_handler, Pipeline.trigger_termination, hsteps]
  · intro popt l code hl
    cases popt with
    | none =>
        simp [ctrlc_handler] at hl
        subst hl
        simp
    | some p =>
        cases hsteps : p.steps with
        | nil =>
            simp [ctrlc_handler, Pipeline.trigger_termination, hsteps] at hl
        | cons s rest =>
            simp [ctrlc_handler, Pipeline.trigger_termination, hsteps] at hl
            subst hl
            simp
  · intro popt
    rfl

/-- C8 witness: with a concrete two-step pipeline the first interrupt shuts
down the first step only; a second interrupt exits the process. -/
theorem claim_C8_witness :
    ctrlc_handler false
        (some { description := none, listeners := []
                steps := [c1_step, c1_step] })
      = (true, some [HostEffect.shutdown_call 1])
    ∧ ctrlc_handler true none = (true, some [HostEffect.exit_process (-1)]) :=
  ⟨claim_C8.1 { description := none, listeners := [], steps := [c1_step, c1_step] }
      c1_step [c1_step] rfl,
   claim_C8.2.2 none⟩

/- ===== C4 ===== -/

/-- C4 (amended): the termination callback bound into modules never sends
anything on the system-command channel; with the singleton registered and a
matching step it marks that step Terminated directly, itself, so the
command-bus consumer thread is not the only writer of the Terminated
state. -/
theorem claim_C4 :
    (∀ (popt : Option Pipeline) (h : Nat) (m : SystemMessage),
        HostEffect.send_system_message m ∉ (on_step_terminate_cb popt h).2)
    ∧ (∀ (p : Pipeline) (h : Nat) (s : PipelineStep),
        p.get_step_by_handle h = some s →
        on_step_terminate_cb (some p) h = (some (p.terminate_step_by_handle h), [])) := by
  constructor
  · intro popt h m
    cases popt with
    | none => simp [on_step_terminate_cb]
    | some p =>
        cases hf : p.get_step_by_handle h <;> simp [on_step_terminate_cb, hf]
  · intro p h s hf
    simp [on_step_terminate_cb, hf]

/-- Pipeline used by the C4 counterexample: two running steps. -/
def c4_pipeline : Pipeline :=
  { description := none
    listeners := []
    steps :=
      [{ component := { args := [], handle := 0, id := "step_0_src", state := PipelineComponentState.Running }
         module := c1_step.module },
       { component := { args := [], handle := 1, id := "step_1_dst", state := PipelineComponentState.Running }
         module := c1_step.module }] }

/-- C4 counterexample: invoking the termination callback for handle 0 puts
no TerminateStep message on the system-command channel, yet the first step
ends up Terminated — written by the callback itself, not by the command-bus
consumer thread. -/
theorem claim_C4_cex :
    HostEffect.send_system_message (SystemMessage.TerminateStep 0)
        ∉ (on_step_terminate_cb (some c4_pipeline) 0).2
    ∧ (((on_step_terminate_cb (some c4_pipeline) 0).1.map
          (fun q => q.steps.map (fun st => st.component.state))).getD [])
        = [PipelineComponentState.Terminated, PipelineComponentState.Running] := by
  constructor
  · decide
  · rfl

/-- C4 witness: the amended theorem applied to the concrete pipeline. -/
theorem claim_C4_witness :
    on_step_terminate_cb (some c4_pipeline) 0
      = (some (c4_pipeline.terminate_step_by_handle 0), []) :=
  claim_C4.2 c4_pipeline 0
    { component := { args := [], handle := 0, id := "step_0_src", state := PipelineComponentState.Running }
      module := c1_step.module } rfl

/- ===== C2 ===== -/

/-- Under all-Ok listener starts, the listener loop emits one start call per
listener, in order, and succeeds. -/
lemma start_listeners_go_ok (ls : List Listener)
    (h : ∀ l ∈ ls, l.module.start_fn l.component.handle = StepStartFnResult.Ok) :
    start_listeners_go ls
      = (ls.map (fun l => HostEffect.start_listener_call l.component.handle),
         Except.ok ()) := by
  induction ls with
  | nil => rfl
  | cons l rest ih =>
      have hl : l.module.start_fn l.component.handle = StepStartFnResult.Ok :=
        h l (by simp)
      have hrest := ih (fun x hx => h x (by simp [hx]))
      simp [start_listeners_go, hl, hrest]

/-- Under all-Ok step starts, the step loop emits one start call per step,
in order, and succeeds. -/
lemma start_pipeline_steps_go_ok (ss : List PipelineStep)
    (h : ∀ s ∈ ss, s.module.start_fn s.component.handle = StepStartFnResult.Ok) :
    start_pipeline_steps_go ss
      = (ss.map (fun s => HostEffect.start_step_call s.component.handle),
         Except.ok ()) := by
  induction ss with
  | nil => rfl
  | cons s rest ih =>
      have hs : s.module.start_fn s.component.handle = StepStartFnResult.Ok :=
        h s (by simp)
      have hrest := ih (fun x hx => h x (by simp [hx]))
      simp [start_pipeline_steps_go, hs, hrest]

/-- C2 (amended): when every module start succeeds, start_steps starts the
listeners first, in registration order, then the steps in pipeline order,
and returns Ok; it takes the pipeline by immutable borrow and writes no
component state, so no component becomes Running — states keep whatever
value they had (Configured after a successful configure_steps). -/
theorem claim_C2 (p : Pipeline)
    (hl : ∀ l ∈ p.listeners, l.module.start_fn l.component.handle = StepStartFnResult.Ok)
    (hs : ∀ s ∈ p.steps, s.module.start_fn s.component.handle = StepStartFnResult.Ok) :
    p.start_steps
      = (p.listeners.map (fun l => HostEffect.start_listener_call l.component.handle)
          ++ p.steps.map (fun s => HostEffect.start_step_call s.component.handle),
         Except.ok ()) := by
  simp [Pipeline.start_steps, start_listeners_go_ok p.listeners hl,
    start_pipeline_steps_go_ok p.steps hs]

/-- Pipeline used by the C2 counterexample and witness: two steps whose
components are Configured and whose modules start successfully. -/
def c2_pipeline : Pipeline :=
  { description := none
    listeners := []
    steps :=
      [{ component := { args := [], handle := 0, id := "step_0_src", state := PipelineComponentState.Configured }
         module := c1_step.module },
       { component := { args := [], handle := 1, id := "step_1_dst", state := PipelineComponentState.Configured }
         module := c1_step.module }] }

/-- C2 counterexample: start_steps succeeds on this pipeline, yet no
component has state Running afterwards — the states are still Configured,
because the host never assigns the Running state. -/
theorem claim_C2_cex :
    (c2_pipeline.start_steps).2 = Except.ok ()
    ∧ c2_pipeline.steps.map (fun s => s.component.state)
        = [PipelineComponentState.Configured, PipelineComponentState.Configured]
    ∧ ¬ (∀ s ∈ c2_pipeline.steps, s.component.state = PipelineComponentState.Running) := by
  refine ⟨rfl, rfl, ?_⟩
  intro h
  have := h { component := { args := [], handle := 0, id := "step_0_src", state := PipelineComponentState.Configured }
              module := c1_step.module } (by simp [c2_pipeline])
  simp at this

/-- C2 witness: the amended theorem applied to the concrete pipeline. -/
theorem claim_C2_witness :
    c2_pipeline.start_steps
      = ([HostEffect.start_step_call 0, HostEffect.start_step_call 1],
         Except.ok ()) :=
  claim_C2 c2_pipeline (by intro l hl; simp [c2_pipeline] at hl)
    (by
      intro s hs
      simp [c2_pipeline] at hs
      rcases hs with h | h <;> subst h <;> rfl)

/- ===== C10 ===== -/

/-- The sender registry keys are exactly the edge indices 0..len-2. -/
lemma registered_senders_keys (p : Pipeline) :
    p.registered_senders.map Prod.fst = List.range (p.steps.length - 1) := by
  simp [Pipeline.registered_senders, Function.comp_def]

/-- C10 (amended): senders are registered exactly for edge indices
0..len-2, so the last step has no sender and its emissions are dropped
without any send and without any deallocation; when a sender is registered
and the send succeeds, the callback sends a clone of the record and issues
exactly one deallocation of the original through the free-record function
registered for the emitting handle.  (When the send fails the callback
returns without freeing — see the counterexample.) -/
theorem claim_C10 :
    (∀ p : Pipeline,
        p.registered_senders.map Prod.fst = List.range (p.steps.length - 1)
        ∧ ∀ n, p.steps.length = n + 1 → assoc_lookup p.registered_senders n = none)
    ∧ (∀ (senders : List (Nat × SenderChannel)) (fb : List (Nat × Nat))
          (r : Record) (h : Nat),
        assoc_lookup senders h = none → on_rcv_cb senders fb r h = some [])
    ∧ (∀ (senders : List (Nat × SenderChannel)) (fb : List (Nat × Nat))
          (r : Record) (h : Nat) (free_fn : Nat),
        assoc_lookup senders h = some { alive := true } →
        assoc_lookup fb h = some free_fn →
        on_rcv_cb senders fb r h
          = some [HostEffect.send_record h r.clone,
                  HostEffect.free_via_module_free_record free_fn r]) := by
  refine ⟨?_, ?_, ?_⟩
  · intro p
    refine ⟨registered_senders_keys p, ?_⟩
    intro n hn
    apply assoc_lookup_eq_none
    intro kv hkv
    simp [Pipeline.registered_senders] at hkv
    obtain ⟨i, hi, hkvi⟩ := hkv
    have : kv.1 = i := by simp [← hkvi]
    omega
  · intro senders fb r h hnone
    simp [on_rcv_cb, hnone]
  · intro senders fb r h free_fn hsome hfb
    simp [on_rcv_cb, hsome, hfb]

/-- Registries used by the C10 counterexample: the sender for handle 0 is
registered but its receiving end is gone (the reader thread exited). -/
def c10_senders : List (Nat × SenderChannel) := [(0, { alive := false })]

/-- FREE_BUF for the C10 counterexample: handle 0 has free function 7. -/
def c10_free_buf : List (Nat × Nat) := [(0, 7)]

/-- C10 counterexample: the sender for handle 0 is registered, yet the
emission issues no deallocation at all, because the channel send fails and
the callback returns before reaching the free call — refuting that a
registered sender always implies exactly one deallocation. -/
theorem claim_C10_cex :
    assoc_lookup c10_senders 0 = some { alive := false }
    ∧ on_rcv_cb c10_senders c10_free_buf { rid := 0 } 0
        = some [HostEffect.log_error
            "Failed to send a record from step \x270\x27 to the next steep"]
    ∧ ((on_rcv_cb c10_senders c10_free_buf { rid := 0 } 0).getD []).countP
        HostEffect.is_dealloc = 0 := by
  refine ⟨rfl, rfl, rfl⟩

/-- C10 witness: the amended theorem applied to a live sender, and to the
last step of a two-step pipeline, which has none. -/
theorem claim_C10_witness :
    on_rcv_cb [(0, { alive := true })] [(0, 7)] { rid := 3 } 0
      = some [HostEffect.send_record 0 { rid := 3 },
              HostEffect.free_via_module_free_record 7 { rid := 3 }]
    ∧ assoc_lookup c2_pipeline.registered_senders 1 = none :=
  ⟨claim_C10.2.2 [(0, { alive := true })] [(0, 7)] { rid := 3 } 0 7 rfl rfl,
   (claim_C10.1 c2_pipeline).2 1 rfl⟩

/- ===== C3 ===== -/

/-- If every step handler resolves, the step construction succeeds and
yields one step per definition entry. -/
lemma build_steps_some (libs : List (String × PipelineModule)) (sds : List ModuleDefinition) :
    ∀ idx, (∀ sd ∈ sds, (assoc_lookup libs sd.handler).isSome) →
    ∃ l, build_steps libs sds idx = some l ∧ l.length = sds.length := by
  induction sds with
  | nil => exact fun idx _ => ⟨[], rfl, rfl⟩
  | cons sd rest ih =>
      intro idx h
      obtain ⟨m, hm⟩ := Option.isSome_iff_exists.mp (h sd (by simp))
      obtain ⟨l, hl, hlen⟩ := ih (idx + 1) (fun x hx => h x (by simp [hx]))
      exact ⟨PipelineStep.from_module m idx sd.args :: l,
        by simp [build_steps, hm, hl], by simp [hlen]⟩

/-- A successful step construction means every step handler resolved. -/
lemma build_steps_resolved (libs : List (String × PipelineModule)) (sds : List ModuleDefinition) :
    ∀ idx l, build_steps libs sds idx = some l →
    ∀ sd ∈ sds, (assoc_lookup libs sd.handler).isSome := by
  induction sds with
  | nil => intro idx l _ sd hm; simp at hm
  | cons sd0 rest ih =>
      intro idx l hb sd hm
      cases hlk : assoc_lookup libs sd0.handler with
      | none => simp [build_steps, hlk] at hb
      | some m =>
          simp [build_steps, hlk] at hb
          obtain ⟨l2, hl2, _⟩ := hb
          rw [List.mem_cons] at hm
          rcases hm with hm | hm
          · subst hm; simp [hlk]
          · exact ih (idx + 1) l2 hl2 sd hm

/-- If every listener handler resolves, the listener construction succeeds. -/
lemma build_listeners_some (libs : List (String × ListenerModule)) (lds : List ModuleDefinition) :
    ∀ idx, (∀ ld ∈ lds, (assoc_lookup libs ld.handler).isSome) →
    ∃ l, build_listeners libs lds idx = some l ∧ l.length = lds.length := by
  induction lds with
  | nil => exact fun idx _ => ⟨[], rfl, rfl⟩
  | cons ld rest ih =>
      intro idx h
      obtain ⟨m, hm⟩ := Option.isSome_iff_exists.mp (h ld (by simp))
      obtain ⟨l, hl, hlen⟩ := ih (idx + 1) (fun x hx => h x (by simp [hx]))
      exact ⟨Listener.from_module m idx ld.args :: l,
        by simp [build_listeners, hm, hl], by simp [hlen]⟩

/-- A successful listener construction means every handler resolved. -/
lemma build_listeners_resolved (libs : List (String × ListenerModule)) (lds : List ModuleDefinition) :
    ∀ idx l, build_listeners libs lds idx = some l →
    ∀ ld ∈ lds, (assoc_lookup libs ld.handler).isSome := by
  induction lds with
  | nil => intro idx l _ ld hm; simp at hm
  | cons ld0 rest ih =>
      intro idx l hb ld hm
      cases hlk : assoc_lookup libs ld0.handler with
      | none => simp [build_listeners, hlk] at hb
      | some m =>
          simp [build_listeners, hlk] at hb
          obtain ⟨l2, hl2, _⟩ := hb
          rw [List.mem_cons] at hm
          rcases hm with hm | hm
          · subst hm; simp [hlk]
          · exact ih (idx + 1) l2 hl2 ld hm

/-- A first unresolved step handler makes assembly fail with the Module not
found message. -/
lemma try_from_step_missing (d : PipelineDefinition) (libs : LoadedLibraries)
    (sd : ModuleDefinition)
    (hfind : d.steps.find? (fun x => (assoc_lookup libs.pipeline x.handler).isNone) = some sd) :
    Pipeline.try_from d libs = BuildResult.err ("Module not found: " ++ sd.handler) := by
  simp [Pipeline.try_from, hfind]

/-- When every step handler resolves the validation scan finds nothing. -/
lemma find?_none_of_resolved (d : PipelineDefinition) (libs : LoadedLibraries)
    (h : ∀ sd ∈ d.steps, (assoc_lookup libs.pipeline sd.handler).isSome) :
    d.steps.find? (fun x => (assoc_lookup libs.pipeline x.handler).isNone) = none := by
  apply List.find?_eq_none.mpr
  intro x hx
  cases hcase : assoc_lookup libs.pipeline x.handler with
  | none =>
      have := h x hx
      rw [hcase] at this
      simp at this
  | some m => simp [hcase]

/-- C3 (amended): assembly returns a Pipeline exactly when every step
handler and every listener handler resolves and there are at least two
steps; the first unresolved step handler yields the fatal error "Module not
found: {handler}"; an unresolved listener handler, the step handlers all
resolving, crashes in an unwrap panic instead of returning that error;
with every handler resolved but fewer than two steps the error is
"Pipeline must have at least two steps. The actual number of steps: {n}". -/
theorem claim_C3 (d : PipelineDefinition) (libs : LoadedLibraries) :
    ((∃ p, Pipeline.try_from d libs = BuildResult.ok p)
      ↔ (∀ sd ∈ d.steps, (assoc_lookup libs.pipeline sd.handler).isSome)
        ∧ (∀ ld ∈ d.listeners.getD [], (assoc_lookup libs.listeners ld.handler).isSome)
        ∧ 2 ≤ d.steps.length)
    ∧ (∀ sd, d.steps.find? (fun x => (assoc_lookup libs.pipeline x.handler).isNone) = some sd →
        Pipeline.try_from d libs = BuildResult.err ("Module not found: " ++ sd.handler))
    ∧ ((∀ sd ∈ d.steps, (assoc_lookup libs.pipeline sd.handler).isSome) →
        (∃ ld ∈ d.listeners.getD [], assoc_lookup libs.listeners ld.handler = none) →
        Pipeline.try_from d libs = BuildResult.panicked)
    ∧ ((∀ sd ∈ d.steps, (assoc_lookup libs.pipeline sd.handler).isSome) →
        (∀ ld ∈ d.listeners.getD [], (assoc_lookup libs.listeners ld.handler).isSome) →
        d.steps.length < 2 →
        Pipeline.try_from d libs = BuildResult.err
          ("Pipeline must have at least two steps. The actual number of steps: " ++
            toString d.steps.length)) := by
  have hpanic : (∀ sd ∈ d.steps, (assoc_lookup libs.pipeline sd.handler).isSome) →
      (∃ ld ∈ d.listeners.getD [], assoc_lookup libs.listeners ld.handler = none) →
      Pipeline.try_from d libs = BuildResult.panicked := by
    intro h1 hmiss
    obtain ⟨l, hbs, _⟩ := build_steps_some libs.pipeline d.steps 0 h1
    have hbl : build_listeners libs.listeners (d.listeners.getD []) d.steps.length = none := by
      cases hb : build_listeners libs.listeners (d.listeners.getD []) d.steps.length with
      | none => rfl
      | some ll =>
          obtain ⟨ld, hld, hnone⟩ := hmiss
          have := build_listeners_resolved libs.listeners (d.listeners.getD [])
            d.steps.length ll hb ld hld
          rw [hnone] at this
          simp at this
    simp [Pipeline.try_from, find?_none_of_resolved d libs h1, hbs, hbl]
  have hshort : (∀ sd ∈ d.steps, (assoc_lookup libs.pipeline sd.handler).isSome) →
      (∀ ld ∈ d.listeners.getD [], (assoc_lookup libs.listeners ld.handler).isSome) →
      d.steps.length < 2 →
      Pipeline.try_from d libs = BuildResult.err
        ("Pipeline must have at least two steps. The actual number of steps: " ++
          toString d.steps.length) := by
    intro h1 h2 hlen
    obtain ⟨l, hbs, hlens⟩ := build_steps_some libs.pipeline d.steps 0 h1
    obtain ⟨ll, hbl, _⟩ := build_listeners_some libs.listeners (d.listeners.getD [])
      d.steps.length h2
    have hv : ({ description := d.description, steps := l, listeners := ll } : Pipeline).validate
        = Except.error ("Pipeline must have at least two steps. The actual number of steps: " ++
            toString d.steps.length) := by
      simp [Pipeline.validate, hlens, hlen]
    simp [Pipeline.try_from, find?_none_of_resolved d libs h1, hbs, hbl, hv]
  have hok : (∀ sd ∈ d.steps, (assoc_lookup libs.pipeline sd.handler).isSome) →
      (∀ ld ∈ d.listeners.getD [], (assoc_lookup libs.listeners ld.handler).isSome) →
      2 ≤ d.steps.length → ∃ p, Pipeline.try_from d libs = BuildResult.ok p := by
    intro h1 h2 hlen
    obtain ⟨l, hbs, hlens⟩ := build_steps_some libs.pipeline d.steps 0 h1
    obtain ⟨ll, hbl, _⟩ := build_listeners_some libs.listeners (d.listeners.getD [])
      d.steps.length h2
    have hv : ({ description := d.description, steps := l, listeners := ll } : Pipeline).validate
        = Except.ok () := by
      have : ¬ (l.length < 2) := by omega
      simp [Pipeline.validate, this]
    refine ⟨{ description := d.description, steps := l, listeners := ll }, ?_⟩
    simp [Pipeline.try_from, find?_none_of_resolved d libs h1, hbs, hbl, hv]
  refine ⟨?_, fun sd h => try_from_step_missing d libs sd h, hpanic, hshort⟩
  constructor
  · rintro ⟨p, hp⟩
    by_cases h1 : ∀ sd ∈ d.steps, (assoc_lookup libs.pipeline sd.handler).isSome
    · by_cases h2 : ∀ ld ∈ d.listeners.getD [], (assoc_lookup libs.listeners ld.handler).isSome
      · by_cases h3 : 2 ≤ d.steps.length
        · exact ⟨h1, h2, h3⟩
        · rw [hshort h1 h2 (by omega)] at hp
          exact BuildResult.noConfusion hp
      · have hmiss : ∃ ld ∈ d.listeners.getD [], assoc_lookup libs.listeners ld.handler = none := by
          push_neg at h2
          obtain ⟨ld, hld, hns⟩ := h2
          cases hcase : assoc_lookup libs.listeners ld.handler with
          | none => exact ⟨ld, hld, hcase⟩
          | some m => rw [hcase] at hns; simp at hns
        rw [hpanic h1 hmiss] at hp
        exact BuildResult.noConfusion hp
    · cases hf : d.steps.find? (fun x => (assoc_lookup libs.pipeline x.handler).isNone) with
      | none =>
          exfalso
          apply h1
          intro sd hsd
          have := List.find?_eq_none.mp hf sd hsd
          cases hcase : assoc_lookup libs.pipeline sd.handler with
          | none => rw [hcase] at this; simp at this
          | some m => simp [hcase]
      | some sd =>
          rw [try_from_step_missing d libs sd hf] at hp
          exact BuildResult.noConfusion hp
  · rintro ⟨h1, h2, h3⟩
    exact hok h1 h2 h3

/-- Pipeline module used by concrete assembly inputs. -/
def c3_module : PipelineModule := c1_step.module

/-- Listener registry for the C3 counterexample: no listener module loaded. -/
def c3_libs : LoadedLibraries :=
  { pipeline := [("src", c3_module), ("dst", c3_module)], listeners := [] }

/-- Definition for the C3 counterexample: both step handlers resolve, the
single listener handler "foo" does not. -/
def c3_def : PipelineDefinition :=
  { description := none
    steps := [{ name := "a", handler := "src", args := none },
              { name := "b", handler := "dst", args := none }]
    listeners := some [{ name := "l", handler := "foo", args := none }] }

/-- C3 counterexample: with the unresolved listener handler "foo" the
assembly panics in the unwrap instead of returning any error — in
particular it does not return the "Module not found: foo" fatal error the
claim promises for unresolved listener handlers. -/
theorem claim_C3_cex :
    Pipeline.try_from c3_def c3_libs = BuildResult.panicked
    ∧ ¬ ∃ msg, Pipeline.try_from c3_def c3_libs = BuildResult.err msg := by
  have h : Pipeline.try_from c3_def c3_libs = BuildResult.panicked := rfl
  refine ⟨h, ?_⟩
  rintro ⟨msg, hmsg⟩
  rw [h] at hmsg
  exact BuildResult.noConfusion hmsg

/-- C3 witness: the amended theorem applied to concrete definitions — a
missing step handler produces the Module not found error, and a short
pipeline with resolved handlers produces the two-step error. -/
theorem claim_C3_witness :
    Pipeline.try_from
        { description := none
          steps := [{ name := "a", handler := "nope", args := none }]
          listeners := none }
        c3_libs
      = BuildResult.err ("Module not found: " ++ "nope")
    ∧ Pipeline.try_from
        { description := none
          steps := [{ name := "a", handler := "src", args := none }]
          listeners := none }
        c3_libs
      = BuildResult.err
          ("Pipeline must have at least two steps. The actual number of steps: " ++
            toString (1 : Nat)) :=
  ⟨(claim_C3 { description := none
               steps := [{ name := "a", handler := "nope", args := none }]
               listeners := none } c3_libs).2.1
      { name := "a", handler := "nope", args := none } rfl,
   (claim_C3 { description := none
               steps := [{ name := "a", handler := "src", args := none }]
               listeners := none } c3_libs).2.2.2
      (by decide) (by simp) (by decide)⟩

/- ===== C6 ===== -/

/-- A step after its successful configure call: only the state changed, to
Configured. -/
def configured_step (s : PipelineStep) : PipelineStep :=
  { s with component := { s.component with state := PipelineComponentState.Configured } }

/-- The effects configure_steps performs for one step at position pr.1:
every arg through set_param, then the configure call with the
position-derived role. -/
def step_configure_trace (last : Nat) (pr : Nat × PipelineStep) : List HostEffect :=
  pr.2.component.args.map (fun kv => HostEffect.set_param pr.2.component.handle kv.1 kv.2)
    ++ [HostEffect.configure_call pr.2.component.handle (step_kind last pr.1)]

/-- PipelineStep.configure succeeds, Configured, when the wrapper reports no
error. -/
lemma configure_ok (s : PipelineStep) (kind : PipelineModuleKind)
    (h : pipeline_configure_error s.component.handle
        (s.module.configure_fn s.component.handle kind) = none) :
    s.configure kind = Except.ok (configured_step s) := by
  simp [PipelineStep.configure, h, configured_step]

/-- PipelineStep.configure fails with exactly the wrapper message. -/
lemma configure_error (s : PipelineStep) (kind : PipelineModuleKind) (e : String)
    (h : pipeline_configure_error s.component.handle
        (s.module.configure_fn s.component.handle kind) = some e) :
    s.configure kind = Except.error e := by
  simp [PipelineStep.configure, h]

/-- When every remaining step configures cleanly at its position, the loop
emits exactly the per-step traces in order, configures every step, and
reports no error. -/
lemma configure_steps_go_ok (last : Nat) (sds : List PipelineStep) : ∀ idx,
    (∀ pr ∈ sds.enumFrom idx, pipeline_configure_error pr.2.component.handle
        (pr.2.module.configure_fn pr.2.component.handle (step_kind last pr.1)) = none) →
    configure_steps_go last idx sds
      = (((sds.enumFrom idx).map (step_configure_trace last)).flatten,
         sds.map configured_step, none) := by
  induction sds with
  | nil => intro idx _; rfl
  | cons s rest ih =>
      intro idx h
      have hs := h (idx, s) (by simp [List.enumFrom_cons])
      have hrest := ih (idx + 1) (fun pr hpr => h pr (by simp [List.enumFrom_cons, hpr]))
      simp [configure_steps_go, configure_ok s (step_kind last idx) hs, hrest,
        List.enumFrom_cons, step_configure_trace]

/-- Splitting the loop at a clean prefix: the suffix is processed from the
offset position, the error of the run is the error of the suffix. -/
lemma configure_steps_go_append (last : Nat) (pre rest : List PipelineStep) : ∀ idx,
    (∀ pr ∈ pre.enumFrom idx, pipeline_configure_error pr.2.component.handle
        (pr.2.module.configure_fn pr.2.component.handle (step_kind last pr.1)) = none) →
    configure_steps_go last idx (pre ++ rest)
      = (((pre.enumFrom idx).map (step_configure_trace last)).flatten
            ++ (configure_steps_go last (idx + pre.length) rest).1,
         pre.map configured_step ++ (configure_steps_go last (idx + pre.length) rest).2.1,
         (configure_steps_go last (idx + pre.length) rest).2.2) := by
  induction pre with
  | nil => intro idx _; rfl
  | cons s pre2 ih =>
      intro idx h
      have hs := h (idx, s) (by simp [List.enumFrom_cons])
      have hrest := ih (idx + 1) (fun pr hpr => h pr (by simp [List.enumFrom_cons, hpr]))
      have hadd : idx + 1 + pre2.length = idx + (pre2.length + 1) := by omega
      simp [configure_steps_go, configure_ok s (step_kind last idx) hs, hrest,
        List.enumFrom_cons, step_configure_trace, hadd, List.append_assoc]

/-- C6 (amended): configure_steps processes the steps in order, pushing
every arg via set_param and configuring with the role derived purely from
ordinal position (0 = Source, last = Destination, else Transformation);
when every configure succeeds, the whole trace is the per-step traces in
order, every resulting step is Configured, never Terminated, and no error
is reported; the first configure failure aborts the walk and the returned
error is exactly the wrapper message of the failing step — which carries
the step handle for the kind and multiple-instance errors, but is the raw
module message for ErrorMisc, identifying no step. -/
theorem claim_C6 (p : Pipeline) :
    ((∀ pr ∈ p.steps.enum, pipeline_configure_error pr.2.component.handle
          (pr.2.module.configure_fn pr.2.component.handle
            (step_kind (p.steps.length - 1) pr.1)) = none) →
      p.configure_steps
        = ((p.steps.enum.map (step_configure_trace (p.steps.length - 1))).flatten,
           p.steps.map configured_step, none)
      ∧ (∀ s ∈ (p.configure_steps).2.1,
          s.component.state = PipelineComponentState.Configured
          ∧ s.component.state ≠ PipelineComponentState.Terminated))
    ∧ (∀ pre s post e, p.steps = pre ++ s :: post →
        (∀ pr ∈ pre.enum, pipeline_configure_error pr.2.component.handle
            (pr.2.module.configure_fn pr.2.component.handle
              (step_kind (p.steps.length - 1) pr.1)) = none) →
        pipeline_configure_error s.component.handle
            (s.module.configure_fn s.component.handle
              (step_kind (p.steps.length - 1) pre.length)) = some e →
        (p.configure_steps).2.2 = some e)
    ∧ step_kind (p.steps.length - 1) 0 = PipelineModuleKind.Source
    ∧ (2 ≤ p.steps.length →
        step_kind (p.steps.length - 1) (p.steps.length - 1) = PipelineModuleKind.Destination)
    ∧ (∀ i, 0 < i → i < p.steps.length - 1 →
        step_kind (p.steps.length - 1) i = PipelineModuleKind.Transformation) := by
  refine ⟨?_, ?_, ?_, ?_, ?_⟩
  · intro h
    have heq := configure_steps_go_ok (p.steps.length - 1) p.steps 0 h
    refine ⟨heq, ?_⟩
    intro s hs
    rw [Pipeline.configure_steps, heq] at hs
    simp at hs
    obtain ⟨s0, _, hs0⟩ := hs
    rw [← hs0]
    simp [configured_step]
  · intro pre s post e hsplit hpre herr
    have hgo := configure_steps_go_append (p.steps.length - 1) pre (s :: post) 0 hpre
    have hone : (configure_steps_go (p.steps.length - 1) (0 + pre.length) (s :: post)).2.2
        = some e := by
      have hcfg := configure_error s (step_kind (p.steps.length - 1) pre.length) e herr
      simp [configure_steps_go, Nat.zero_add, hcfg]
    show (configure_steps_go (p.steps.length - 1) 0 p.steps).2.2 = some e
    rw [hsplit] at hgo hone ⊢
    rw [hgo]
    exact hone
  · simp [step_kind]
  · intro hlen
    have h0 : p.steps.length - 1 ≠ 0 := by omega
    simp [step_kind, h0]
  · intro i h0 hlast
    have hne : i ≠ 0 := by omega
    have hne2 : i ≠ p.steps.length - 1 := by omega
    simp [step_kind, hne, hne2]

/-- Source step of the C6 counterexample pipeline: configures cleanly. -/
def c6_step_a : PipelineStep :=
  { component := { args := [], handle := 0, id := "step_0_modA", state := PipelineComponentState.Created }
    module := { module_id := "modA"
                configure_fn := fun _ _ => ModulePipelineConfigureFnResult.Ok
                start_fn := fun _ => StepStartFnResult.Ok
                process_record_fn := fun _ _ => ModulePipelineProcessRecordFnResult.Ok true
                free_record_fn := 0 } }

/-- Destination step of the C6 counterexample pipeline: its configure
returns ErrorMisc "boom". -/
def c6_step_b : PipelineStep :=
  { component := { args := [], handle := 1, id := "step_1_modB", state := PipelineComponentState.Created }
    module := { module_id := "modB"
                configure_fn := fun _ _ => ModulePipelineConfigureFnResult.ErrorMisc "boom"
                start_fn := fun _ => StepStartFnResult.Ok
                process_record_fn := fun _ _ => ModulePipelineProcessRecordFnResult.Ok true
                free_record_fn := 0 } }

/-- Pipeline of the C6 counterexample. -/
def c6_pipeline : Pipeline :=
  { description := none, listeners := [], steps := [c6_step_a, c6_step_b] }

/-- C6 counterexample: the configure failure of step 1 aborts startup with
the raw module message "boom", which contains neither the failing step id
"step_1_modB" nor its handle "1" — the abort message does not identify the
offending step. -/
theorem claim_C6_cex :
    (c6_pipeline.configure_steps).2.2 = some "boom"
    ∧ c6_pipeline.steps.map (fun s => s.component.id) = ["step_0_modA", "step_1_modB"]
    ∧ ¬ List.IsInfix "step_1_modB".data "boom".data
    ∧ ¬ List.IsInfix "1".data "boom".data := by
  refine ⟨rfl, rfl, by decide, by decide⟩

/-- C6 witness: the amended theorem applied to a concrete clean pipeline
and to the aborting pipeline. -/
theorem claim_C6_witness :
    c2_pipeline.configure_steps
      = ([HostEffect.configure_call 0 PipelineModuleKind.Source,
          HostEffect.configure_call 1 PipelineModuleKind.Destination],
         c2_pipeline.steps.map configured_step, none)
    ∧ (c6_pipeline.configure_steps).2.2 = some "boom" :=
  ⟨((claim_C6 c2_pipeline).1 (by decide)).1,
   (claim_C6 c6_pipeline).2.1 [c6_step_a] c6_step_b [] "boom" rfl (by decide) rfl⟩

/- ===== C7 ===== -/

/-- A version-mismatched library contributes nothing to the enumeration
loop: the run over any surrounding entries is unchanged. -/
lemma load_libraries_go_skip (cur : Nat) (req : List String) (e : LibEntry)
    (he : e.api_version ≠ cur) (pre post : List LibEntry) : ∀ acc loaded,
    load_libraries_go cur req (pre ++ e :: post) acc loaded
      = load_libraries_go cur req (pre ++ post) acc loaded := by
  induction pre with
  | nil =>
      intro acc loaded
      simp only [List.nil_append, load_libraries_go, if_pos he]
  | cons a pre2 ih =>
      intro acc loaded
      by_cases h1 : a.api_version ≠ cur
      · simp only [List.cons_append, load_libraries_go, if_pos h1]
        exact ih acc loaded
      · by_cases h2 : req.contains a.id
        · simp only [List.cons_append, load_libraries_go, if_neg h1, if_pos h2]
          exact ih _ _
        · simp only [List.cons_append, load_libraries_go, if_neg h1, if_neg h2]
          exact ih acc loaded

/-- Every id the loop records as loaded either was already recorded or
belongs to an enumerated entry whose api_version matches the host. -/
lemma load_libraries_go_loaded_mem (cur : Nat) (req : List String) :
    ∀ (entries : List LibEntry) (acc : LoadedLibraries) (loaded : List String) (x : String),
    x ∈ (load_libraries_go cur req entries acc loaded).2 →
    x ∈ loaded ∨ ∃ e ∈ entries, e.id = x ∧ e.api_version = cur := by
  intro entries
  induction entries with
  | nil => intro acc loaded x hx; exact Or.inl hx
  | cons a rest ih =>
      intro acc loaded x hx
      by_cases h1 : a.api_version ≠ cur
      · rw [show load_libraries_go cur req (a :: rest) acc loaded
            = load_libraries_go cur req rest acc loaded from by
              simp only [load_libraries_go, if_pos h1]] at hx
        rcases ih acc loaded x hx with h | ⟨e, he, hid⟩
        · exact Or.inl h
        · exact Or.inr ⟨e, by simp [he], hid⟩
      · by_cases h2 : req.contains a.id
        · rw [show load_libraries_go cur req (a :: rest) acc loaded
              = load_libraries_go cur req rest
                  (match a.lib with
                   | LoadedLibraryEntry.pipelineLib m =>
                       { acc with pipeline := (a.id, m) :: acc.pipeline }
                   | LoadedLibraryEntry.listenerLib m =>
                       { acc with listeners := (a.id, m) :: acc.listeners })
                  (loaded ++ [a.id]) from by
                simp only [load_libraries_go, if_neg h1, if_pos h2]] at hx
          rcases ih _ _ x hx with h | ⟨e, he, hid⟩
          · rcases List.mem_append.mp h with h | h
            · exact Or.inl h
            · have hx : x = a.id := by simpa using h
              exact Or.inr ⟨a, by simp, hx.symm, by omega⟩
          · exact Or.inr ⟨e, by simp [he], hid⟩
        · rw [show load_libraries_go cur req (a :: rest) acc loaded
              = load_libraries_go cur req rest acc loaded from by
                simp only [load_libraries_go, if_neg h1, if_neg h2]] at hx
          rcases ih acc loaded x hx with h | ⟨e, he, hid⟩
          · exact Or.inl h
          · exact Or.inr ⟨e, by simp [he], hid⟩

/-- When some required id is missing, loading fails with the aggregate
message. -/
lemma load_libraries_missing_error (cur : Nat) (entries : List LibEntry)
    (req : List String) (h : missing_module_ids cur entries req ≠ []) :
    load_libraries cur entries req
      = Except.error ("Failed to load modules: " ++
          String.intercalate ", " (missing_module_ids cur entries req)) := by
  have hlen : 0 < (missing_module_ids cur entries req).length :=
    List.length_pos.mpr h
  simp only [load_libraries, if_pos hlen]

/-- C7: a library whose api_version differs from the host's is skipped and
never enters the registries (loading a directory with it equals loading the
directory without it); if any required id stays unloaded the result is the
fatal aggregate error listing every missing id; and a required id all of
whose libraries are version-mismatched is such a missing id, so it causes
that fatal error. -/
theorem claim_C7 :
    (∀ (cur : Nat) (pre post : List LibEntry) (e : LibEntry) (req : List String),
        e.api_version ≠ cur →
        load_libraries cur (pre ++ e :: post) req = load_libraries cur (pre ++ post) req)
    ∧ (∀ (cur : Nat) (entries : List LibEntry) (req : List String),
        missing_module_ids cur entries req ≠ [] →
        load_libraries cur entries req
          = Except.error ("Failed to load modules: " ++
              String.intercalate ", " (missing_module_ids cur entries req)))
    ∧ (∀ (cur : Nat) (entries : List LibEntry) (req : List String) (id : String),
        id ∈ req → (∀ e ∈ entries, e.id = id → e.api_version ≠ cur) →
        id ∈ missing_module_ids cur entries req
        ∧ load_libraries cur entries req
            = Except.error ("Failed to load modules: " ++
                String.intercalate ", " (missing_module_ids cur entries req))) := by
  refine ⟨?_, load_libraries_missing_error, ?_⟩
  · intro cur pre post e req he
    have hgo := load_libraries_go_skip cur req e he pre post
      { pipeline := [], listeners := [] } []
    have hmiss : missing_module_ids cur (pre ++ e :: post) req
        = missing_module_ids cur (pre ++ post) req := by
      simp only [missing_module_ids, hgo]
    simp only [load_libraries, hgo, hmiss]
  · intro cur entries req id hid hall
    have hnotloaded : id ∉ (load_libraries_go cur req entries
        { pipeline := [], listeners := [] } []).2 := by
      intro hmem
      rcases load_libraries_go_loaded_mem cur req entries
          { pipeline := [], listeners := [] } [] id hmem with h | ⟨e, he, heid, hapi⟩
      · simp at h
      · exact hall e he heid hapi
    have hin : id ∈ missing_module_ids cur entries req := by
      simp only [missing_module_ids]
      rw [List.mem_filter]
      exact ⟨hid, by simp [hnotloaded]⟩
    exact ⟨hin, load_libraries_missing_error cur entries req
      (List.ne_nil_of_mem hin)⟩

/-- Library entry for the C7 witness: required id "m" but api_version 2
against a host at version 1. -/
def c7_entry : LibEntry :=
  { api_version := 2, id := "m", lib := LoadedLibraryEntry.pipelineLib c3_module }

/-- C7 witness: the theorem applied to the concrete mismatched entry — the
entry is skipped and the required id ends in the fatal aggregate error. -/
theorem claim_C7_witness :
    load_libraries 1 [c7_entry] ["m"] = load_libraries 1 [] ["m"]
    ∧ "m" ∈ missing_module_ids 1 [c7_entry] ["m"]
    ∧ load_libraries 1 [c7_entry] ["m"]
        = Except.error ("Failed to load modules: " ++
            String.intercalate ", " (missing_module_ids 1 [c7_entry] ["m"])) := by
  have hall : ∀ e ∈ [c7_entry], e.id = "m" → e.api_version ≠ 1 := by
    intro e he _
    have heq : e = c7_entry := by simpa using he
    subst heq
    decide
  have hc := claim_C7.2.2 1 [c7_entry] ["m"] "m" (by simp) hall
  exact ⟨claim_C7.1 1 [] [] c7_entry ["m"] (by decide), hc.1, hc.2⟩

end Torustiq
